import Mathlib

/-!
Verification development for the PKCE token-acquisition flow
(`getPkceAccessToken` and its helpers) and the OAuth-proxy state
lifecycle (`GitOAuthService.generateSecureState` / `validateState`).

The JavaScript source is shallowly embedded: network effects become
explicit environment values (what each `fetch` would return), the
Express callback handler becomes a pure function from its inputs to the
ordered list of observable events it performs, and the in-memory
session `Map` becomes an association list threaded through the state
functions.
-/

namespace Pkce

/-- JS truthiness of an optional string value (absent and the empty
string are falsy, every other string is truthy). -/
def jsTruthy : Option String → Bool
  | none => false
  | some s => s ≠ ""

/-- The components of a parsed URL that the source reads: `url.protocol`
(including the trailing colon, e.g. "https:"), `url.host`, and
`url.port` (absent when the URL has no explicit port). A value of type
`Option UrlParts` stands for the result of `new URL(...)`: `none` when
the constructor throws. -/
structure UrlParts where
  protocol : String
  host : String
  port : Option Nat
deriving Repr, DecidableEq

/-- Embedding of `getPortFromRedirectUri` (src/unnamed/part_001 lines
32-40): the explicit port when present, otherwise 443 for https and 80
otherwise, and 3000 when the redirect URI cannot be parsed. -/
def getPortFromRedirectUri : Option UrlParts → Nat
  | none => 3000
  | some u =>
    match u.port with
    | some p => p
    | none => if u.protocol = "https:" then 443 else 80

/-- Scan for the closing quote of the regex `resource="([^"]+)"` at the
current position: the capture is the maximal run of characters other
than a double quote, and the match requires a nonempty capture followed
by the literal closing quote. -/
def captureUntilQuote (cs : List Char) : Option (List Char) :=
  let cap := cs.takeWhile (fun c => c ≠ '"')
  match cs.drop cap.length with
  | '"' :: _ => if cap.isEmpty then none else some cap
  | _ => none

/-- The literal characters of the pattern prefix `resource="`. -/
def resourcePat : List Char := ['r', 'e', 's', 'o', 'u', 'r', 'c', 'e', '=', '"']

/-- Leftmost-match semantics of `wwwAuth.match(/resource="([^"]+)"/)`:
try the pattern at every start position, returning the first capture. -/
def scanResource : List Char → Option (List Char)
  | [] => none
  | c :: rest =>
    if resourcePat.isPrefixOf (c :: rest) then
      match captureUntilQuote ((c :: rest).drop resourcePat.length) with
      | some cap => some cap
      | none => scanResource rest
    else
      scanResource rest

/-- Embedding of the `resource="([^"]+)"` regex extraction applied to
the WWW-Authenticate header value (src/unnamed/part_001 line 56). -/
def extractResource (s : String) : Option String :=
  (scanResource s.data).map fun cap => String.mk cap

deriving instance DecidableEq for Except

/-- What the environment supplies to the three discovery probes of
`getAuthorizationServerDiscoveryUrl`: for the unauthenticated request
to the endpoint URL, either a thrown network error or the value of the
`www-authenticate` response header (`none` when the header is absent);
for the two well-known probes, either a thrown network error or the
value of `res.ok`. -/
structure DiscoveryEnv where
  endpointFetch : Except String (Option String)
  oauthMetaFetch : Except String Bool
  oidcFetch : Except String Bool
deriving Repr, DecidableEq

/-- The three discovery strategies, in source order. -/
inductive Strategy where
  | wwwAuth
  | oauthMeta
  | oidc
deriving Repr, DecidableEq

/-- The origin-prefixed well-known URL for OAuth Authorization Server
Metadata (src/unnamed/part_001 line 68). -/
def oauthMetaUrl (mcp : UrlParts) : String :=
  mcp.protocol ++ "//" ++ mcp.host ++ "/.well-known/oauth-authorization-server"

/-- The origin-prefixed well-known URL for OpenID Connect Discovery
(src/unnamed/part_001 line 82). -/
def oidcUrl (mcp : UrlParts) : String :=
  mcp.protocol ++ "//" ++ mcp.host ++ "/.well-known/openid-configuration"

/-- The error message thrown when every discovery strategy is exhausted
(src/unnamed/part_001 line 95). -/
def discoveryErrorMsg : String :=
  "Could not find OAuth Authorization Server Metadata or OpenID Connect Discovery endpoint"

/-- Embedding of `getAuthorizationServerDiscoveryUrl` (src/unnamed/
part_001 lines 47-96). Strategy 1: fetch the endpoint URL, and when the
`www-authenticate` header is truthy and the `resource="..."` regex
matches, return the capture (thrown fetch errors are caught and fall
through). Strategy 2: probe the oauth-authorization-server well-known
URL and return it when `res.ok` (thrown errors fall through). Strategy
3: same for openid-configuration. Otherwise throw. The second component
records which strategies were attempted, in order. -/
def getAuthorizationServerDiscoveryUrl (mcp : UrlParts) (env : DiscoveryEnv) :
    Except String String × List Strategy :=
  let fromHeader : Option String :=
    match env.endpointFetch with
    | .error _ => none
    | .ok hdr =>
      match hdr with
      | none => none
      | some w => if w = "" then none else extractResource w
  match fromHeader with
  | some r => (.ok r, [.wwwAuth])
  | none =>
    match env.oauthMetaFetch with
    | .ok true => (.ok (oauthMetaUrl mcp), [.wwwAuth, .oauthMeta])
    | _ =>
      match env.oidcFetch with
      | .ok true => (.ok (oidcUrl mcp), [.wwwAuth, .oauthMeta, .oidc])
      | _ => (.error discoveryErrorMsg, [.wwwAuth, .oauthMeta, .oidc])

/-- Spec-side reading of strategy 1: the resource URL extracted from the
WWW-Authenticate header of a successful unauthenticated request, when
the header is present, truthy and the pattern matches. -/
def strategy1Result (env : DiscoveryEnv) : Option String :=
  match env.endpointFetch with
  | .error _ => none
  | .ok none => none
  | .ok (some w) => if w = "" then none else extractResource w

/-- Spec-side reading of strategy 2: the well-known OAuth metadata probe
succeeds exactly when the fetch did not throw and returned HTTP success. -/
def strategy2Ok (env : DiscoveryEnv) : Bool :=
  match env.oauthMetaFetch with
  | .ok true => true
  | _ => false

/-- Spec-side reading of strategy 3: the OpenID Connect discovery probe
succeeds exactly when the fetch did not throw and returned HTTP success. -/
def strategy3Ok (env : DiscoveryEnv) : Bool :=
  match env.oidcFetch with
  | .ok true => true
  | _ => false

/-! ### SHA-256 and base64url

`generators.codeVerifier()` and `generators.codeChallenge()` come from
the `openid-client` library, whose code is not part of this repository;
the challenge derivation is therefore modelled from the spec. The
implementation below is plain FIPS 180-4 SHA-256 over natural numbers
(32-bit words as `Nat` reduced modulo 2^32) followed by unpadded
base64url, and reproduces the RFC 7636 appendix B test vector. -/

/-- Reduce a natural number to a 32-bit word. -/
def w32 (x : Nat) : Nat := x % 4294967296

/-- Right rotation of a 32-bit word by `n` bits. -/
def rotr (n x : Nat) : Nat := x / 2 ^ n + x % 2 ^ n * 2 ^ (32 - n)

/-- The 64 SHA-256 round constants. -/
def shaK : List Nat :=
  [1116352408, 1899447441, 3049323471, 3921009573, 961987163,
   1508970993, 2453635748, 2870763221, 3624381080, 310598401,
   607225278, 1426881987, 1925078388, 2162078206, 2614888103,
   3248222580, 3835390401, 4022224774, 264347078, 604807628,
   770255983, 1249150122, 1555081692, 1996064986, 2554220882,
   2821834349, 2952996808, 3210313671, 3336571891, 3584528711,
   113926993, 338241895, 666307205, 773529912, 1294757372,
   1396182291, 1695183700, 1986661051, 2177026350, 2456956037,
   2730485921, 2820302411, 3259730800, 3345764771, 3516065817,
   3600352804, 4094571909, 275423344, 430227734, 506948616,
   659060556, 883997877, 958139571, 1322822218, 1537002063,
   1747873779, 1955562222, 2024104815, 2227730452, 2361852424,
   2428436474, 2756734187, 3204031479, 3329325298]

/-- The SHA-256 initial hash values. -/
def shaInit : List Nat :=
  [1779033703, 3144134277, 1013904242, 2773480762, 1359893119,
   2600822924, 528734635, 1541459225]

/-- SHA-256 message padding: append 0x80, zeros, and the 64-bit
big-endian bit length, to a multiple of 64 bytes. -/
def padMessage (msg : List Nat) : List Nat :=
  let len := msg.length
  let zeros := (64 + 56 - (len + 1) % 64) % 64
  let bitLen := len * 8
  msg ++ [0x80] ++ List.replicate zeros 0 ++
    [bitLen / 2 ^ 56 % 256, bitLen / 2 ^ 48 % 256, bitLen / 2 ^ 40 % 256, bitLen / 2 ^ 32 % 256,
     bitLen / 2 ^ 24 % 256, bitLen / 2 ^ 16 % 256, bitLen / 2 ^ 8 % 256, bitLen % 256]

/-- Group bytes into big-endian 32-bit words. -/
def bytesToWords : List Nat → List Nat
  | a :: b :: c :: d :: rest => (a * 2 ^ 24 + b * 2 ^ 16 + c * 2 ^ 8 + d) :: bytesToWords rest
  | _ => []

/-- One extension step of the SHA-256 message schedule. -/
def scheduleStep (ws : List Nat) : Nat :=
  let n := ws.length
  let g := fun (i : Nat) => ws.getD (n - i) 0
  let s0 := (rotr 7 (g 15)).xor ((rotr 18 (g 15)).xor (g 15 / 2 ^ 3))
  let s1 := (rotr 17 (g 2)).xor ((rotr 19 (g 2)).xor (g 2 / 2 ^ 10))
  w32 (w32 s1 + g 7 + w32 s0 + g 16)

/-- Extend the 16-word schedule by the given number of steps. -/
def extendSchedule (ws : List Nat) : Nat → List Nat
  | 0 => ws
  | n + 1 => extendSchedule (ws ++ [scheduleStep ws]) n

/-- The eight SHA-256 working variables. -/
structure ShaState where
  a : Nat
  b : Nat
  c : Nat
  d : Nat
  e : Nat
  f : Nat
  g : Nat
  h : Nat

/-- One SHA-256 compression round. -/
def compressStep (st : ShaState) (kw : Nat × Nat) : ShaState :=
  let s1 := (rotr 6 st.e).xor ((rotr 11 st.e).xor (rotr 25 st.e))
  let ch := (st.e.land st.f).xor ((4294967295 - w32 st.e).land st.g)
  let temp1 := w32 (st.h + w32 s1 + ch + kw.1 + kw.2)
  let s0 := (rotr 2 st.a).xor ((rotr 13 st.a).xor (rotr 22 st.a))
  let maj := (st.a.land st.b).xor ((st.a.land st.c).xor (st.b.land st.c))
  let temp2 := w32 (w32 s0 + maj)
  { a := w32 (temp1 + temp2), b := st.a, c := st.b, d := st.c,
    e := w32 (st.d + temp1), f := st.e, g := st.f, h := st.g }

/-- Compress one 64-byte chunk into the running hash values. -/
def compressChunk (hs : List Nat) (chunk : List Nat) : List Nat :=
  let ws := extendSchedule (bytesToWords chunk) 48
  let g := fun (i : Nat) => hs.getD i 0
  let st0 : ShaState :=
    { a := g 0, b := g 1, c := g 2, d := g 3, e := g 4, f := g 5, g := g 6, h := g 7 }
  let st := (shaK.zip ws).foldl (fun s kw => compressStep s kw) st0
  [w32 (g 0 + st.a), w32 (g 1 + st.b), w32 (g 2 + st.c), w32 (g 3 + st.d),
   w32 (g 4 + st.e), w32 (g 5 + st.f), w32 (g 6 + st.g), w32 (g 7 + st.h)]

/-- Split a byte list into 64-byte chunks (fuel-based so that the
definition reduces inside the kernel). -/
def chunksAux : Nat → List Nat → List (List Nat)
  | 0, _ => []
  | _, [] => []
  | fuel + 1, c :: rest => (c :: rest).take 64 :: chunksAux fuel ((c :: rest).drop 64)

/-- Split a byte list into 64-byte chunks. -/
def chunks64 (l : List Nat) : List (List Nat) := chunksAux l.length l

/-- SHA-256 of a byte list, as the 32-byte big-endian digest. -/
def sha256 (msg : List Nat) : List Nat :=
  let hs := (chunks64 (padMessage msg)).foldl compressChunk shaInit
  hs.foldr (fun w acc => w / 2 ^ 24 % 256 :: w / 2 ^ 16 % 256 :: w / 2 ^ 8 % 256 :: w % 256 :: acc) []

/-- The base64url alphabet. -/
def b64Alphabet : List Char :=
  "ABCDEFGHIJKLMNOPQRSTUVWXYZabcdefghijklmnopqrstuvwxyz0123456789-_".data

/-- The base64url character for a 6-bit value. -/
def b64Char (n : Nat) : Char := b64Alphabet.getD n 'A'

/-- Unpadded base64url encoding of a byte list. -/
def base64url : List Nat → List Char
  | [] => []
  | [a] => [b64Char (a / 4), b64Char (a % 4 * 16)]
  | [a, b] => [b64Char (a / 4), b64Char (a % 4 * 16 + b / 16), b64Char (b % 16 * 4)]
  | a :: b :: c :: rest =>
    b64Char (a / 4) :: b64Char (a % 4 * 16 + b / 16) :: b64Char (b % 16 * 4 + c / 64) ::
      b64Char (c % 64) :: base64url rest

/-- UTF-8 encoding of a single character. -/
def utf8Bytes (c : Char) : List Nat :=
  let n := c.toNat
  if n < 128 then [n]
  else if n < 2048 then [192 + n / 64, 128 + n % 64]
  else if n < 65536 then [224 + n / 4096, 128 + n / 64 % 64, 128 + n % 64]
  else [240 + n / 262144, 128 + n / 4096 % 64, 128 + n / 64 % 64, 128 + n % 64]

/-- UTF-8 bytes of a string. -/
def strBytes (s : String) : List Nat :=
  s.data.foldr (fun c acc => utf8Bytes c ++ acc) []

/-- Modelled from the spec: `generators.codeChallenge(code_verifier)`
from the `openid-client` library (not part of this repository) — the
"SHA-256-derived, base64url-encoded challenge" with no padding
(src/unnamed/part_001 line 141; spec section 3, step 4 of section 4.1).
Matches the RFC 7636 appendix B test vector. -/
def codeChallenge (v : String) : String :=
  String.mk (base64url (sha256 (strBytes v)))

/-! ### The flow state of one `getPkceAccessToken` invocation -/

/-- The values a single invocation of `getPkceAccessToken` has in scope
when it builds the authorization URL and handles the callback: the
resolved options, the registered client identifier, the discovered
token endpoint, and the freshly generated code verifier. -/
structure FlowConfig where
  redirectUri : String
  scope : String
  client_id : String
  token_endpoint : String
  code_verifier : String
deriving Repr, DecidableEq

/-- A minimal JSON value, for the parsed token-endpoint response body. -/
inductive Json where
  | null
  | bool (b : Bool)
  | num (n : Int)
  | str (s : String)
  | arr (elems : List Json)
  | obj (fields : List (String × Json))
deriving Repr

/-- Field lookup on a JSON object. -/
def Json.getField : Json → String → Option Json
  | .obj fields, k => fields.lookup k
  | _, _ => none

/-- The values of string-typed fields in a registration request. -/
inductive RegValue where
  | str (s : String)
  | list (ss : List String)
deriving Repr, DecidableEq

/-- Embedding of the dynamic client registration request body, the
object literal passed to `issuer.Client.register` (src/unnamed/part_001
lines 129-135). The object has exactly these five fields and no
`client_secret` field. -/
def registrationMetadata (redirectUri : String) : List (String × RegValue) :=
  [("client_name", .str "MCP OAuth Client"),
   ("redirect_uris", .list [redirectUri]),
   ("grant_types", .list ["authorization_code"]),
   ("response_types", .list ["code"]),
   ("token_endpoint_auth_method", .str "none")]

/-- Modelled from the spec: the query parameters of the authorization
URL built by `client.authorizationUrl` from the `openid-client` library
(not part of this repository). The source passes `scope`,
`code_challenge`, `code_challenge_method: S256` and `redirect_uri`
(src/unnamed/part_001 lines 144-149); the spec (section 6) fixes the
full parameter list as "scope, code_challenge,
code_challenge_method=S256, redirect_uri, client_id". -/
def authorizationUrlParams (cfg : FlowConfig) : List (String × String) :=
  [("client_id", cfg.client_id),
   ("scope", cfg.scope),
   ("code_challenge", codeChallenge cfg.code_verifier),
   ("code_challenge_method", "S256"),
   ("redirect_uri", cfg.redirectUri)]

/-- Embedding of the form-encoded token-exchange request body, the
`URLSearchParams` literal of the manual token exchange
(src/unnamed/part_001 lines 183-189). -/
def tokenRequestBody (cfg : FlowConfig) (code : String) : List (String × String) :=
  [("grant_type", "authorization_code"),
   ("code", code),
   ("redirect_uri", cfg.redirectUri),
   ("client_id", cfg.client_id),
   ("code_verifier", cfg.code_verifier)]

/-! ### The callback handler -/

/-- The query parameters `client.callbackParams(req)` extracts from the
callback request: each of `error`, `error_description` and `code` is
absent or a string. -/
structure CallbackParams where
  error : Option String
  error_description : Option String
  code : Option String
deriving Repr, DecidableEq

/-- What the token endpoint returns when the `fetch` promise resolves:
the HTTP status and status text, the response body text (what
`tokenResponse.text()` yields), and the result of parsing the body as
JSON (what `tokenResponse.json()` yields, `Except.error` when parsing
throws). -/
structure TokenResponse where
  status : Nat
  statusText : String
  bodyText : String
  json : Except String Json
deriving Repr

/-- The outcome of the `fetch` to the token endpoint: a thrown network
error, or a response. -/
inductive FetchOutcome where
  | thrown (msg : String)
  | response (r : TokenResponse)
deriving Repr

/-- `res.ok` of the WHATWG fetch response: status in the range 200-299. -/
def TokenResponse.ok (r : TokenResponse) : Bool :=
  200 ≤ r.status && r.status ≤ 299

/-- The errors the callback handler can throw, one constructor per
throw site, carrying the data interpolated into the message. -/
inductive FlowError where
  | authorizationError (err : String) (desc : Option String)
  | codeMissing
  | fetchFailed (msg : String)
  | tokenExchangeFailed (status : Nat) (statusText : String) (body : String)
  | jsonParseFailed (msg : String)
deriving Repr, DecidableEq

/-- The message string of each error, following the template literals of
the source (an absent `error_description` interpolates as "undefined"). -/
def FlowError.message : FlowError → String
  | .authorizationError err desc =>
    "Authorization error: " ++ err ++ " - " ++ desc.getD "undefined"
  | .codeMissing => "Authorization code not received"
  | .fetchFailed m => m
  | .tokenExchangeFailed status statusText body =>
    "Token exchange failed: " ++ toString status ++ " " ++ statusText ++ " - " ++ body
  | .jsonParseFailed m => m

/-- How the promise of `getPkceAccessToken` settles. -/
inductive Outcome where
  | resolved (tokenSet : Json)
  | rejected (e : FlowError)
deriving Repr

/-- The observable actions of the callback handler, in the order it
performs them: issuing the token-exchange POST, sending the HTTP
response to the browser, closing the listener, settling the promise. -/
inductive Event where
  | tokenRequest (url : String) (body : List (String × String))
  | respond (status : Nat)
  | closeServer
  | settle (o : Outcome)
deriving Repr

/-- The event suffix of every failure path of the handler: the `catch`
block sends a 500 page, then closes the server, and the close callback
rejects the promise (src/unnamed/part_001 lines 215-230). -/
def failEvents (e : FlowError) : List Event :=
  [.respond 500, .closeServer, .settle (.rejected e)]

/-- The handler continuation after the `params.error` guard did not
fire: the `params.code` guard and the token exchange. -/
def handleCallbackAfterError (cfg : FlowConfig) (fr : FetchOutcome) (params : CallbackParams) :
    List Event :=
  match params.code with
  | none => failEvents .codeMissing
  | some code =>
    if code = "" then failEvents .codeMissing
    else
      Event.tokenRequest cfg.token_endpoint (tokenRequestBody cfg code) ::
        match fr with
        | .thrown m => failEvents (.fetchFailed m)
        | .response r =>
          if r.ok then
            match r.json with
            | .error m => failEvents (.jsonParseFailed m)
            | .ok tokenSet => [.respond 200, .closeServer, .settle (.resolved tokenSet)]
          else
            failEvents (.tokenExchangeFailed r.status r.statusText r.bodyText)

/-- Embedding of the Express callback handler of `getPkceAccessToken`
(src/unnamed/part_001 lines 164-231), as the ordered list of observable
events of one handler run. Mirrors the source: a truthy `error`
parameter throws an authorization error; a falsy `code` throws; then
the token exchange POST is issued, whose environment-supplied outcome
is `fr`; a thrown fetch rejects; `!tokenResponse.ok` throws with status,
status text and body text; a JSON parse failure rejects; otherwise a 200
page is sent, the server closes, and the close callback resolves with
the parsed token set. -/
def handleCallback (cfg : FlowConfig) (fr : FetchOutcome) (params : CallbackParams) :
    List Event :=
  match params.error with
  | some err =>
    if err = "" then handleCallbackAfterError cfg fr params
    else failEvents (.authorizationError err params.error_description)
  | none => handleCallbackAfterError cfg fr params

/-! ### The listener run -/

/-- Whether an event is a promise settlement. -/
def Event.isSettle : Event → Bool
  | .settle _ => true
  | _ => false

/-- The listener and promise state across the lifetime of one
invocation: whether the server still accepts requests, the settled
outcome of the promise if any, how many callback requests were handled
to completion, and how many resolve-or-reject calls were issued. -/
structure ListenerState where
  isOpen : Bool
  settled : Option Outcome
  handled : Nat
  settleCalls : Nat
deriving Repr

/-- Apply one handler event to the listener and promise state:
`server.close` stops the server accepting requests; a resolve or reject
call counts as a settle call and settles the promise when it is not yet
settled (a later call on a settled promise is a no-op, per JS promise
semantics). -/
def applyEvent (st : ListenerState) : Event → ListenerState
  | .closeServer => { st with isOpen := false }
  | .settle o =>
    { st with
      settleCalls := st.settleCalls + 1,
      settled := match st.settled with | some o0 => some o0 | none => some o }
  | _ => st

/-- Modelled from the spec: the Express/Node HTTP server is library code
not part of this repository; per the spec (section 3, "Callback State":
the listener is "alive only until it receives exactly one callback
request", and section 4.1 step 6) it is modelled as delivering the
incoming requests in order, running the source handler
(`handleCallback`) to completion for each request that arrives while
the server is open, and dropping requests that arrive after the server
closed. Each request comes with the token-endpoint behavior the
environment would give its exchange. -/
def stepListener (cfg : FlowConfig) (st : ListenerState)
    (req : CallbackParams × FetchOutcome) : ListenerState :=
  if st.isOpen then
    (handleCallback cfg req.2 req.1).foldl applyEvent { st with handled := st.handled + 1 }
  else st

/-- The listener state after a whole run: start open and unsettled, then
process every request that reaches the listener. -/
def runListener (cfg : FlowConfig) (reqs : List (CallbackParams × FetchOutcome)) :
    ListenerState :=
  reqs.foldl (stepListener cfg) { isOpen := true, settled := none, handled := 0, settleCalls := 0 }

end Pkce

namespace GitOAuth

/-- A session entry of the OAuth-proxy service: the value stored in the
`userSessions` map by `generateSecureState` (src/git-oauth/client.js
line 323). -/
structure Session where
  userId : String
  timestamp : Int
deriving Repr, DecidableEq

/-- The `userSessions` map, embedded as an association list with unique
keys (`Map.set` replaces, `Map.delete` removes, `Map.get` looks up). -/
abbrev SessionMap := List (String × Session)

/-- `userSessions.delete(state)`. -/
def eraseKey (m : SessionMap) (k : String) : SessionMap :=
  m.filter (fun p => p.1 ≠ k)

/-- `userSessions.set(state, value)`. -/
def setKey (m : SessionMap) (k : String) (v : Session) : SessionMap :=
  (k, v) :: eraseKey m k

/-- Embedding of `GitOAuthService.generateSecureState` (src/git-oauth/
client.js lines 321-325): the state string interpolates the user id,
the current time and a random suffix, and the session map binds it to
the user id and generation timestamp. `now` stands for `Date.now()` and
`rand` for the `Math.random().toString(36).substr(2, 9)` suffix. -/
def generateSecureState (m : SessionMap) (userId : String) (now : Int) (rand : String) :
    String × SessionMap :=
  let state := userId ++ "_" ++ toString now ++ "_" ++ rand
  (state, setKey m state { userId := userId, timestamp := now })

/-- Embedding of `GitOAuthService.validateState` (src/git-oauth/
client.js lines 330-343): look the state up, returning null when
absent; delete the used state; return null when more than five minutes
(300000 ms) old, and the bound user id otherwise. Returns the result
and the session map after the call. -/
def validateState (m : SessionMap) (now : Int) (state : String) :
    Option String × SessionMap :=
  match m.lookup state with
  | none => (none, m)
  | some session =>
    let m' := eraseKey m state
    if now - session.timestamp > 5 * 60 * 1000 then (none, m')
    else (some session.userId, m')

end GitOAuth

namespace Pkce

/-- A handler event trace tears the listener down and only then
settles: the trace ends with `closeServer` followed by the settlement,
and neither a close nor a settlement occurs earlier. -/
def closesBeforeSettle (l : List Event) : Prop :=
  ∃ pre o, l = pre ++ [Event.closeServer, Event.settle o] ∧
    Event.closeServer ∉ pre ∧ ∀ o', Event.settle o' ∉ pre

lemma failEvents_shape (e : FlowError) : closesBeforeSettle (failEvents e) := by
  refine ⟨[.respond 500], .rejected e, rfl, ?_, ?_⟩ <;> simp [failEvents]

lemma closesBeforeSettle_cons (e : Event) (l : List Event)
    (h : closesBeforeSettle l) (hc : e ≠ .closeServer) (hs : ∀ o, e ≠ .settle o) :
    closesBeforeSettle (e :: l) := by
  obtain ⟨pre, o, hl, hpc, hps⟩ := h
  refine ⟨e :: pre, o, by rw [hl]; rfl, ?_, ?_⟩
  · intro hmem
    rcases List.mem_cons.mp hmem with h1 | h1
    · exact hc h1.symm
    · exact hpc h1
  · intro o' hmem
    rcases List.mem_cons.mp hmem with h1 | h1
    · exact hs o' h1.symm
    · exact hps o' h1

lemma handleCallbackAfterError_shape (cfg : FlowConfig) (fr : FetchOutcome)
    (params : CallbackParams) : closesBeforeSettle (handleCallbackAfterError cfg fr params) := by
  unfold handleCallbackAfterError
  rcases params with ⟨e, d, c⟩
  rcases c with _ | code
  · exact failEvents_shape _
  · dsimp only
    by_cases hcode : code = ""
    · simp only [hcode, if_pos rfl]
      exact failEvents_shape _
    · simp only [if_neg hcode]
      refine closesBeforeSettle_cons _ _ ?_ (by intro h; cases h) (by intro o h; cases h)
      rcases fr with m | r
      · exact failEvents_shape _
      · dsimp only
        by_cases hok : r.ok
        · simp only [hok, if_pos rfl]
          rcases hj : r.json with m | t
          · exact failEvents_shape _
          · exact ⟨[.respond 200], .resolved t, rfl, by simp, by simp⟩
        · simp only [if_neg hok]
          exact failEvents_shape _

lemma handleCallback_shape (cfg : FlowConfig) (fr : FetchOutcome)
    (params : CallbackParams) : closesBeforeSettle (handleCallback cfg fr params) := by
  unfold handleCallback
  rcases hE : params.error with _ | err
  · exact handleCallbackAfterError_shape cfg fr params
  · dsimp only
    by_cases he : err = ""
    · simp only [he, if_pos rfl]
      exact handleCallbackAfterError_shape cfg fr params
    · simp only [if_neg he]
      exact failEvents_shape _

end Pkce

/-- C3: on every execution path in which a callback request is handled
— success, authorization error, or token-exchange error — the handler
trace closes the local HTTP listener strictly before the flow promise
settles, and it settles exactly once at the end of the trace. -/
theorem handleCallback_closes_listener_before_settling
    (cfg : Pkce.FlowConfig) (fr : Pkce.FetchOutcome) (params : Pkce.CallbackParams) :
    ∃ pre o, Pkce.handleCallback cfg fr params =
        pre ++ [Pkce.Event.closeServer, Pkce.Event.settle o] ∧
      Pkce.Event.closeServer ∉ pre ∧ ∀ o', Pkce.Event.settle o' ∉ pre :=
  Pkce.handleCallback_shape cfg fr params

/-- C3 witness: the shape holds concretely on the success path. -/
theorem handleCallback_closes_listener_before_settling_witness :
    ∃ pre o, Pkce.handleCallback
        ⟨"http://localhost:3000/callback", "read:jira-work", "cid", "https://as.example/token", "ver"⟩
        (.response ⟨200, "OK", "body", .ok (.obj [("access_token", .str "abc")])⟩)
        ⟨none, none, some "authcode"⟩ =
        pre ++ [Pkce.Event.closeServer, Pkce.Event.settle o] ∧
      Pkce.Event.closeServer ∉ pre ∧ ∀ o', Pkce.Event.settle o' ∉ pre :=
  handleCallback_closes_listener_before_settling _ _ _

/-- C9: the callback listener port is the redirect URI explicit port
when one is present, otherwise 443 for the https scheme and 80
otherwise, and 3000 when the redirect URI cannot be parsed as a URL. -/
theorem getPortFromRedirectUri_cases (protocol host : String) (p : Nat) :
    Pkce.getPortFromRedirectUri (some ⟨protocol, host, some p⟩) = p ∧
    Pkce.getPortFromRedirectUri (some ⟨protocol, host, none⟩) =
      (if protocol = "https:" then 443 else 80) ∧
    Pkce.getPortFromRedirectUri none = 3000 :=
  ⟨rfl, rfl, rfl⟩

/-- C9 witness: concrete ports for an explicit-port URI, a bare https
URI, a bare http URI, and an unparseable URI. -/
theorem getPortFromRedirectUri_cases_witness :
    Pkce.getPortFromRedirectUri (some ⟨"http:", "localhost:3000", some 3000⟩) = 3000 ∧
    Pkce.getPortFromRedirectUri (some ⟨"https:", "example.com", none⟩) = 443 ∧
    Pkce.getPortFromRedirectUri (some ⟨"http:", "example.com", none⟩) = 80 ∧
    Pkce.getPortFromRedirectUri none = 3000 :=
  ⟨(getPortFromRedirectUri_cases "http:" "localhost:3000" 3000).1,
   by
     have h := (getPortFromRedirectUri_cases "https:" "example.com" 0).2.1
     simpa using h,
   by
     have h := (getPortFromRedirectUri_cases "http:" "example.com" 0).2.1
     simpa using h,
   (getPortFromRedirectUri_cases "http:" "x" 0).2.2⟩

/-- C8: the dynamic client registration request always registers a
public client — the token endpoint authentication method is "none" and
no client secret field is sent — restricted to exactly the single
configured redirect URI and the authorization_code grant type. -/
theorem registrationMetadata_public_client (redirectUri : String) :
    (Pkce.registrationMetadata redirectUri).lookup "token_endpoint_auth_method" =
      some (.str "none") ∧
    (Pkce.registrationMetadata redirectUri).lookup "client_secret" = none ∧
    (Pkce.registrationMetadata redirectUri).lookup "redirect_uris" =
      some (.list [redirectUri]) ∧
    (Pkce.registrationMetadata redirectUri).lookup "grant_types" =
      some (.list ["authorization_code"]) ∧
    (Pkce.registrationMetadata redirectUri).lookup "response_types" =
      some (.list ["code"]) :=
  ⟨rfl, rfl, rfl, rfl, rfl⟩

/-- C8 witness: the registration request fields at a concrete redirect
URI. -/
theorem registrationMetadata_public_client_witness :
    (Pkce.registrationMetadata "http://localhost:3000/callback").lookup
        "token_endpoint_auth_method" = some (.str "none") ∧
    (Pkce.registrationMetadata "http://localhost:3000/callback").lookup
        "client_secret" = none ∧
    (Pkce.registrationMetadata "http://localhost:3000/callback").lookup
        "redirect_uris" = some (.list ["http://localhost:3000/callback"]) :=
  ⟨(registrationMetadata_public_client _).1,
   (registrationMetadata_public_client _).2.1,
   (registrationMetadata_public_client _).2.2.1⟩

/-- C2: discovery tries the WWW-Authenticate resource parameter, then
the oauth-authorization-server well-known URL, then the
openid-configuration well-known URL, in strict order; it returns the
first strategy result that succeeds without attempting any later
strategy (the attempted list stops at the first success), and it fails
— always with the discovery error — if and only if all three are
exhausted. -/
theorem getAuthorizationServerDiscoveryUrl_fallback_order
    (mcp : Pkce.UrlParts) (env : Pkce.DiscoveryEnv) :
    (∀ r, Pkce.strategy1Result env = some r →
      Pkce.getAuthorizationServerDiscoveryUrl mcp env = (.ok r, [.wwwAuth])) ∧
    (Pkce.strategy1Result env = none → Pkce.strategy2Ok env = true →
      Pkce.getAuthorizationServerDiscoveryUrl mcp env =
        (.ok (Pkce.oauthMetaUrl mcp), [.wwwAuth, .oauthMeta])) ∧
    (Pkce.strategy1Result env = none → Pkce.strategy2Ok env = false →
        Pkce.strategy3Ok env = true →
      Pkce.getAuthorizationServerDiscoveryUrl mcp env =
        (.ok (Pkce.oidcUrl mcp), [.wwwAuth, .oauthMeta, .oidc])) ∧
    ((Pkce.getAuthorizationServerDiscoveryUrl mcp env).1 = .error Pkce.discoveryErrorMsg ↔
      Pkce.strategy1Result env = none ∧ Pkce.strategy2Ok env = false ∧
        Pkce.strategy3Ok env = false) ∧
    (∀ m, (Pkce.getAuthorizationServerDiscoveryUrl mcp env).1 = .error m →
      m = Pkce.discoveryErrorMsg) := by
  rcases env with ⟨ef, omf, oif⟩
  rcases ef with e | hdr
  · rcases omf with e2 | ok2
    · rcases oif with e3 | ok3
      · simp [Pkce.getAuthorizationServerDiscoveryUrl, Pkce.strategy1Result,
          Pkce.strategy2Ok, Pkce.strategy3Ok]
      · cases ok3 <;>
          simp [Pkce.getAuthorizationServerDiscoveryUrl, Pkce.strategy1Result,
            Pkce.strategy2Ok, Pkce.strategy3Ok]
    · cases ok2
      · rcases oif with e3 | ok3
        · simp [Pkce.getAuthorizationServerDiscoveryUrl, Pkce.strategy1Result,
            Pkce.strategy2Ok, Pkce.strategy3Ok]
        · cases ok3 <;>
            simp [Pkce.getAuthorizationServerDiscoveryUrl, Pkce.strategy1Result,
              Pkce.strategy2Ok, Pkce.strategy3Ok]
      · simp [Pkce.getAuthorizationServerDiscoveryUrl, Pkce.strategy1Result,
          Pkce.strategy2Ok, Pkce.strategy3Ok]
  · rcases hdr with _ | w
    · rcases omf with e2 | ok2
      · rcases oif with e3 | ok3
        · simp [Pkce.getAuthorizationServerDiscoveryUrl, Pkce.strategy1Result,
            Pkce.strategy2Ok, Pkce.strategy3Ok]
        · cases ok3 <;>
            simp [Pkce.getAuthorizationServerDiscoveryUrl, Pkce.strategy1Result,
              Pkce.strategy2Ok, Pkce.strategy3Ok]
      · cases ok2
        · rcases oif with e3 | ok3
          · simp [Pkce.getAuthorizationServerDiscoveryUrl, Pkce.strategy1Result,
              Pkce.strategy2Ok, Pkce.strategy3Ok]
          · cases ok3 <;>
              simp [Pkce.getAuthorizationServerDiscoveryUrl, Pkce.strategy1Result,
                Pkce.strategy2Ok, Pkce.strategy3Ok]
        · simp [Pkce.getAuthorizationServerDiscoveryUrl, Pkce.strategy1Result,
            Pkce.strategy2Ok, Pkce.strategy3Ok]
    · by_cases hw : w = ""
      · subst hw
        rcases omf with e2 | ok2
        · rcases oif with e3 | ok3
          · simp [Pkce.getAuthorizationServerDiscoveryUrl, Pkce.strategy1Result,
              Pkce.strategy2Ok, Pkce.strategy3Ok]
          · cases ok3 <;>
              simp [Pkce.getAuthorizationServerDiscoveryUrl, Pkce.strategy1Result,
                Pkce.strategy2Ok, Pkce.strategy3Ok]
        · cases ok2
          · rcases oif with e3 | ok3
            · simp [Pkce.getAuthorizationServerDiscoveryUrl, Pkce.strategy1Result,
                Pkce.strategy2Ok, Pkce.strategy3Ok]
            · cases ok3 <;>
                simp [Pkce.getAuthorizationServerDiscoveryUrl, Pkce.strategy1Result,
                  Pkce.strategy2Ok, Pkce.strategy3Ok]
          · simp [Pkce.getAuthorizationServerDiscoveryUrl, Pkce.strategy1Result,
              Pkce.strategy2Ok, Pkce.strategy3Ok]
      · rcases hres : Pkce.extractResource w with _ | r
        · rcases omf with e2 | ok2
          · rcases oif with e3 | ok3
            · simp [Pkce.getAuthorizationServerDiscoveryUrl, Pkce.strategy1Result,
                Pkce.strategy2Ok, Pkce.strategy3Ok, hw, hres]
            · cases ok3 <;>
                simp [Pkce.getAuthorizationServerDiscoveryUrl, Pkce.strategy1Result,
                  Pkce.strategy2Ok, Pkce.strategy3Ok, hw, hres]
          · cases ok2
            · rcases oif with e3 | ok3
              · simp [Pkce.getAuthorizationServerDiscoveryUrl, Pkce.strategy1Result,
                  Pkce.strategy2Ok, Pkce.strategy3Ok, hw, hres]
              · cases ok3 <;>
                  simp [Pkce.getAuthorizationServerDiscoveryUrl, Pkce.strategy1Result,
                    Pkce.strategy2Ok, Pkce.strategy3Ok, hw, hres]
            · simp [Pkce.getAuthorizationServerDiscoveryUrl, Pkce.strategy1Result,
                Pkce.strategy2Ok, Pkce.strategy3Ok, hw, hres]
        · simp [Pkce.getAuthorizationServerDiscoveryUrl, Pkce.strategy1Result,
            Pkce.strategy2Ok, Pkce.strategy3Ok, hw, hres]

/-- C2 witness: a header carrying a resource parameter wins without
probing further, and with no header the oauth-authorization-server
probe wins. -/
theorem getAuthorizationServerDiscoveryUrl_fallback_order_witness :
    Pkce.getAuthorizationServerDiscoveryUrl ⟨"https:", "mcp.example.com", none⟩
        ⟨.ok (some "Bearer resource=\"https://meta.example/rs\""), .ok true, .ok true⟩ =
      (.ok "https://meta.example/rs", [.wwwAuth]) ∧
    Pkce.getAuthorizationServerDiscoveryUrl ⟨"https:", "mcp.example.com", none⟩
        ⟨.ok none, .ok true, .ok false⟩ =
      (.ok "https://mcp.example.com/.well-known/oauth-authorization-server",
       [.wwwAuth, .oauthMeta]) :=
  ⟨(getAuthorizationServerDiscoveryUrl_fallback_order _ _).1 "https://meta.example/rs" (by decide),
   (getAuthorizationServerDiscoveryUrl_fallback_order _ _).2.1 (by decide) (by decide)⟩

/-- C4: for every callback request carrying a valid code, when the
token endpoint responds with a non-success HTTP status the flow issues
exactly the token-exchange request and then rejects with the
token-exchange error carrying that status code and the response body. -/
theorem token_exchange_failure_rejects_with_status
    (cfg : Pkce.FlowConfig) (r : Pkce.TokenResponse) (desc : Option String)
    (code : String) (hc : code ≠ "") (hok : r.ok = false) :
    Pkce.handleCallback cfg (.response r) ⟨none, desc, some code⟩ =
      [.tokenRequest cfg.token_endpoint (Pkce.tokenRequestBody cfg code),
       .respond 500, .closeServer,
       .settle (.rejected (.tokenExchangeFailed r.status r.statusText r.bodyText))] := by
  unfold Pkce.handleCallback Pkce.handleCallbackAfterError
  simp [hc, hok, Pkce.failEvents]

/-- C4 witness: an HTTP 400 token-endpoint response rejects with a
token-exchange error carrying status 400 and the body, whose rendered
message contains the status code 400. -/
theorem token_exchange_failure_rejects_with_status_witness :
    Pkce.handleCallback
        ⟨"http://localhost:3000/callback", "read:jira-work", "cid",
         "https://as.example/token", "ver"⟩
        (.response ⟨400, "Bad Request", "invalid_grant", .error "not json"⟩)
        ⟨none, none, some "authcode"⟩ =
      [.tokenRequest "https://as.example/token"
         (Pkce.tokenRequestBody
           ⟨"http://localhost:3000/callback", "read:jira-work", "cid",
            "https://as.example/token", "ver"⟩ "authcode"),
       .respond 500, .closeServer,
       .settle (.rejected (.tokenExchangeFailed 400 "Bad Request" "invalid_grant"))] ∧
    Pkce.FlowError.message (.tokenExchangeFailed 400 "Bad Request" "invalid_grant") =
      "Token exchange failed: 400 Bad Request - invalid_grant" :=
  ⟨token_exchange_failure_rejects_with_status _ _ _ _ (by decide) (by decide), rfl⟩

/-- C5: for every callback request carrying a valid code, when the
token endpoint responds with HTTP success and the body parses as JSON,
the flow resolves with the parsed JSON body as the token set. -/
theorem token_exchange_success_resolves_with_token_set
    (cfg : Pkce.FlowConfig) (r : Pkce.TokenResponse) (desc : Option String)
    (code : String) (t : Pkce.Json)
    (hc : code ≠ "") (hok : r.ok = true) (hj : r.json = .ok t) :
    Pkce.handleCallback cfg (.response r) ⟨none, desc, some code⟩ =
      [.tokenRequest cfg.token_endpoint (Pkce.tokenRequestBody cfg code),
       .respond 200, .closeServer, .settle (.resolved t)] := by
  unfold Pkce.handleCallback Pkce.handleCallbackAfterError
  simp [hc, hok, hj]

/-- C5 witness: a token endpoint returning the body with access_token
"abc" and expires_in 3600 resolves with a token set whose access_token
field equals "abc". -/
theorem token_exchange_success_resolves_with_token_set_witness :
    Pkce.handleCallback
        ⟨"http://localhost:3000/callback", "read:jira-work", "cid",
         "https://as.example/token", "ver"⟩
        (.response ⟨200, "OK", "rawbody",
          .ok (.obj [("access_token", .str "abc"), ("expires_in", .num 3600)])⟩)
        ⟨none, none, some "authcode"⟩ =
      [.tokenRequest "https://as.example/token"
         (Pkce.tokenRequestBody
           ⟨"http://localhost:3000/callback", "read:jira-work", "cid",
            "https://as.example/token", "ver"⟩ "authcode"),
       .respond 200, .closeServer,
       .settle (.resolved (.obj [("access_token", .str "abc"), ("expires_in", .num 3600)]))] ∧
    Pkce.Json.getField
        (.obj [("access_token", .str "abc"), ("expires_in", .num 3600)]) "access_token" =
      some (.str "abc") :=
  ⟨token_exchange_success_resolves_with_token_set _ _ _ _ _ (by decide) (by decide) rfl, rfl⟩

/-- C6: a callback request carrying a truthy error parameter rejects
with the authorization error carrying the provider error code and
description; a callback request with no truthy error and no truthy code
rejects with the code-missing authorization error; in both cases the
handler issues no token-exchange request. -/
theorem callback_error_paths_reject_without_token_request
    (cfg : Pkce.FlowConfig) (fr : Pkce.FetchOutcome) (p : Pkce.CallbackParams) :
    (∀ err, p.error = some err → err ≠ "" →
      Pkce.handleCallback cfg fr p =
        [.respond 500, .closeServer,
         .settle (.rejected (.authorizationError err p.error_description))] ∧
      ∀ u b, Pkce.Event.tokenRequest u b ∉ Pkce.handleCallback cfg fr p) ∧
    (Pkce.jsTruthy p.error = false → Pkce.jsTruthy p.code = false →
      Pkce.handleCallback cfg fr p =
        [.respond 500, .closeServer, .settle (.rejected .codeMissing)] ∧
      ∀ u b, Pkce.Event.tokenRequest u b ∉ Pkce.handleCallback cfg fr p) := by
  constructor
  · intro err herr hne
    have heq : Pkce.handleCallback cfg fr p =
        [.respond 500, .closeServer,
         .settle (.rejected (.authorizationError err p.error_description))] := by
      unfold Pkce.handleCallback
      rw [herr]
      simp [hne, Pkce.failEvents]
    refine ⟨heq, ?_⟩
    intro u b hmem
    rw [heq] at hmem
    simp at hmem
  · intro herr hcode
    have heq : Pkce.handleCallback cfg fr p =
        [.respond 500, .closeServer, .settle (.rejected .codeMissing)] := by
      unfold Pkce.handleCallback Pkce.handleCallbackAfterError
      rcases hp : p.error with _ | err
      · rcases hq : p.code with _ | c
        · simp [Pkce.failEvents]
        · rw [hq] at hcode
          simp [Pkce.jsTruthy] at hcode
          simp [hcode, Pkce.failEvents]
      · rw [hp] at herr
        simp [Pkce.jsTruthy] at herr
        rcases hq : p.code with _ | c
        · simp [herr, Pkce.failEvents]
        · rw [hq] at hcode
          simp [Pkce.jsTruthy] at hcode
          simp [herr, hcode, Pkce.failEvents]
    refine ⟨heq, ?_⟩
    intro u b hmem
    rw [heq] at hmem
    simp at hmem

/-- C6 witness: a callback with error access_denied rejects with the
provider error and description and no token request; a callback with
neither error nor code rejects with the code-missing error and no token
request. -/
theorem callback_error_paths_reject_without_token_request_witness :
    (Pkce.handleCallback
        ⟨"http://localhost:3000/callback", "read:jira-work", "cid",
         "https://as.example/token", "ver"⟩
        (.thrown "unreachable")
        ⟨some "access_denied", some "User denied access", none⟩ =
      [.respond 500, .closeServer,
       .settle (.rejected (.authorizationError "access_denied" (some "User denied access")))]) ∧
    (Pkce.handleCallback
        ⟨"http://localhost:3000/callback", "read:jira-work", "cid",
         "https://as.example/token", "ver"⟩
        (.thrown "unreachable")
        ⟨none, none, none⟩ =
      [.respond 500, .closeServer, .settle (.rejected .codeMissing)]) ∧
    (∀ u b, Pkce.Event.tokenRequest u b ∉
      Pkce.handleCallback
        ⟨"http://localhost:3000/callback", "read:jira-work", "cid",
         "https://as.example/token", "ver"⟩
        (.thrown "unreachable")
        ⟨some "access_denied", some "User denied access", none⟩) :=
  ⟨((callback_error_paths_reject_without_token_request _ _ _).1 "access_denied" rfl
      (by decide)).1,
   ((callback_error_paths_reject_without_token_request _ _ _).2 (by decide) (by decide)).1,
   ((callback_error_paths_reject_without_token_request _ _ _).1 "access_denied" rfl
      (by decide)).2⟩

/-- C1: the PKCE code verifier never appears as a parameter of the
constructed authorization URL — only the SHA-256-derived challenge does
— and the verifier appears exactly in the token-exchange request body,
as the code_verifier field. The hypotheses say the verifier string is
distinct from the other configured parameter values (the challenge of a
verifier differs from the verifier for every real PKCE verifier). -/
theorem pkce_verifier_only_in_token_request
    (cfg : Pkce.FlowConfig)
    (h1 : cfg.code_verifier ≠ cfg.client_id)
    (h2 : cfg.code_verifier ≠ cfg.scope)
    (h3 : cfg.code_verifier ≠ Pkce.codeChallenge cfg.code_verifier)
    (h4 : cfg.code_verifier ≠ "S256")
    (h5 : cfg.code_verifier ≠ cfg.redirectUri)
    (h6 : cfg.code_verifier ≠ "authorization_code") :
    ((Pkce.authorizationUrlParams cfg).lookup "code_verifier" = none) ∧
    ((Pkce.authorizationUrlParams cfg).lookup "code_challenge" =
      some (Pkce.codeChallenge cfg.code_verifier)) ∧
    (∀ k v, (k, v) ∈ Pkce.authorizationUrlParams cfg → v ≠ cfg.code_verifier) ∧
    (∀ code, (Pkce.tokenRequestBody cfg code).lookup "code_verifier" =
      some cfg.code_verifier) ∧
    (∀ code k, code ≠ cfg.code_verifier →
      (k, cfg.code_verifier) ∈ Pkce.tokenRequestBody cfg code → k = "code_verifier") := by
  refine ⟨rfl, rfl, ?_, fun _ => rfl, ?_⟩
  · intro k v hm
    simp only [Pkce.authorizationUrlParams, List.mem_cons, List.mem_singleton,
      List.not_mem_nil, or_false, Prod.mk.injEq] at hm
    rcases hm with ⟨_, hv⟩ | ⟨_, hv⟩ | ⟨_, hv⟩ | ⟨_, hv⟩ | ⟨_, hv⟩ <;>
      (subst hv; intro hEq)
    · exact h1 hEq.symm
    · exact h2 hEq.symm
    · exact h3 hEq.symm
    · exact h4 hEq.symm
    · exact h5 hEq.symm
  · intro code k hcode hm
    simp only [Pkce.tokenRequestBody, List.mem_cons, List.mem_singleton,
      List.not_mem_nil, or_false, Prod.mk.injEq] at hm
    rcases hm with ⟨hk, hv⟩ | ⟨hk, hv⟩ | ⟨hk, hv⟩ | ⟨hk, hv⟩ | ⟨hk, hv⟩
    · exact absurd hv h6
    · exact absurd hv.symm hcode
    · exact absurd hv h5
    · exact absurd hv h1
    · exact hk

set_option maxRecDepth 100000 in
/-- C1 witness: with the RFC 7636 verifier, the authorization URL
parameters carry no code_verifier key and no value equal to the
verifier, while the token request body carries it under code_verifier. -/
theorem pkce_verifier_only_in_token_request_witness :
    ((Pkce.authorizationUrlParams
        ⟨"http://localhost:3000/callback", "read:jira-work", "client123",
         "https://as.example/token",
         "dBjftJeZ4CVP-mB92K27uhbUJU1p1r_wW1gFWFOEjXk"⟩).lookup "code_verifier" = none) ∧
    (∀ k v, (k, v) ∈ Pkce.authorizationUrlParams
        ⟨"http://localhost:3000/callback", "read:jira-work", "client123",
         "https://as.example/token",
         "dBjftJeZ4CVP-mB92K27uhbUJU1p1r_wW1gFWFOEjXk"⟩ →
      v ≠ "dBjftJeZ4CVP-mB92K27uhbUJU1p1r_wW1gFWFOEjXk") ∧
    ((Pkce.tokenRequestBody
        ⟨"http://localhost:3000/callback", "read:jira-work", "client123",
         "https://as.example/token",
         "dBjftJeZ4CVP-mB92K27uhbUJU1p1r_wW1gFWFOEjXk"⟩ "authcode").lookup "code_verifier" =
      some "dBjftJeZ4CVP-mB92K27uhbUJU1p1r_wW1gFWFOEjXk") := by
  have h := pkce_verifier_only_in_token_request
    ⟨"http://localhost:3000/callback", "read:jira-work", "client123",
     "https://as.example/token", "dBjftJeZ4CVP-mB92K27uhbUJU1p1r_wW1gFWFOEjXk"⟩
    (by decide) (by decide) (by decide) (by decide) (by decide) (by decide)
  exact ⟨h.1, h.2.2.1, h.2.2.2.1 "authcode"⟩

namespace Pkce

lemma applyEvent_handled (st : ListenerState) (e : Event) :
    (applyEvent st e).handled = st.handled := by
  cases e <;> rfl

lemma foldl_applyEvent_handled (st : ListenerState) (evs : List Event) :
    (evs.foldl applyEvent st).handled = st.handled := by
  induction evs generalizing st with
  | nil => rfl
  | cons e evs ih => rw [List.foldl_cons, ih, applyEvent_handled]

lemma applyEvent_isOpen_false (st : ListenerState) (e : Event) (h : st.isOpen = false) :
    (applyEvent st e).isOpen = false := by
  cases e <;> simp [applyEvent, h]

lemma foldl_applyEvent_isOpen_false (st : ListenerState) (evs : List Event)
    (h : st.isOpen = false) : (evs.foldl applyEvent st).isOpen = false := by
  induction evs generalizing st with
  | nil => exact h
  | cons e evs ih => exact ih _ (applyEvent_isOpen_false st e h)

lemma foldl_applyEvent_close_mem (st : ListenerState) (evs : List Event)
    (h : Event.closeServer ∈ evs) : (evs.foldl applyEvent st).isOpen = false := by
  induction evs generalizing st with
  | nil => cases h
  | cons e evs ih =>
    rcases List.mem_cons.mp h with h1 | h1
    · rw [List.foldl_cons, ← h1]
      exact foldl_applyEvent_isOpen_false _ _ rfl
    · exact ih _ h1

lemma applyEvent_settleCalls (st : ListenerState) (e : Event) :
    (applyEvent st e).settleCalls = st.settleCalls + (if e.isSettle then 1 else 0) := by
  cases e <;> rfl

lemma foldl_applyEvent_settleCalls (st : ListenerState) (evs : List Event) :
    (evs.foldl applyEvent st).settleCalls = st.settleCalls + evs.countP (·.isSettle) := by
  induction evs generalizing st with
  | nil => rfl
  | cons e evs ih =>
    rw [List.foldl_cons, ih, applyEvent_settleCalls, List.countP_cons]
    by_cases h : e.isSettle <;> simp [h]
    omega

lemma isSettle_eq_true_iff (e : Event) : e.isSettle = true ↔ ∃ o, e = Event.settle o := by
  cases e <;> simp [Event.isSettle]

lemma handleCallback_close_mem (cfg : FlowConfig) (fr : FetchOutcome)
    (params : CallbackParams) : Event.closeServer ∈ handleCallback cfg fr params := by
  obtain ⟨pre, o, hl, -, -⟩ := handleCallback_shape cfg fr params
  rw [hl]
  exact List.mem_append_right pre (List.mem_cons_self _ _)

lemma handleCallback_settle_count (cfg : FlowConfig) (fr : FetchOutcome)
    (params : CallbackParams) :
    (handleCallback cfg fr params).countP (·.isSettle) = 1 := by
  obtain ⟨pre, o, hl, -, hps⟩ := handleCallback_shape cfg fr params
  rw [hl, List.countP_append]
  have hpre : pre.countP (·.isSettle) = 0 := by
    rw [List.countP_eq_zero]
    intro e he hset
    obtain ⟨o', ho'⟩ := (isSettle_eq_true_iff e).mp hset
    exact hps o' (ho' ▸ he)
  rw [hpre]
  rfl

/-- The reachable-state invariant of the listener run: either the
server is still open and nothing was handled or settled yet, or the
server is closed having handled at most one request with at most one
resolve-or-reject call. -/
def ListenerInv (st : ListenerState) : Prop :=
  (st.isOpen = true ∧ st.handled = 0 ∧ st.settleCalls = 0) ∨
  (st.isOpen = false ∧ st.handled ≤ 1 ∧ st.settleCalls ≤ 1)

lemma stepListener_preserves (cfg : FlowConfig) (st : ListenerState)
    (req : CallbackParams × FetchOutcome) (h : ListenerInv st) :
    ListenerInv (stepListener cfg st req) := by
  rcases h with ⟨hop, hh, hs⟩ | ⟨hop, hh, hs⟩
  · right
    unfold stepListener
    simp only [hop, if_true]
    refine ⟨foldl_applyEvent_close_mem _ _ (handleCallback_close_mem cfg req.2 req.1), ?_, ?_⟩
    · rw [foldl_applyEvent_handled]
      simp [hh]
    · rw [foldl_applyEvent_settleCalls]
      simp [hs, handleCallback_settle_count]
  · unfold stepListener
    simp only [hop, Bool.false_eq_true, if_false]
    exact Or.inr ⟨hop, hh, hs⟩

lemma runListener_inv (cfg : FlowConfig) (reqs : List (CallbackParams × FetchOutcome))
    (st : ListenerState) (h : ListenerInv st) :
    ListenerInv (reqs.foldl (stepListener cfg) st) := by
  induction reqs generalizing st with
  | nil => exact h
  | cons r reqs ih => exact ih _ (stepListener_preserves cfg st r h)

end Pkce

/-- C7: however many requests reach the listener, at most one callback
request is handled to completion and the flow promise receives at most
one resolve-or-reject call, so it settles at most once. -/
theorem listener_handles_at_most_one_callback
    (cfg : Pkce.FlowConfig) (reqs : List (Pkce.CallbackParams × Pkce.FetchOutcome)) :
    (Pkce.runListener cfg reqs).handled ≤ 1 ∧
    (Pkce.runListener cfg reqs).settleCalls ≤ 1 := by
  have h := Pkce.runListener_inv cfg reqs
    { isOpen := true, settled := none, handled := 0, settleCalls := 0 }
    (Or.inl ⟨rfl, rfl, rfl⟩)
  rcases h with ⟨-, hh, hs⟩ | ⟨-, hh, hs⟩
  · exact ⟨by rw [Pkce.runListener]; omega, by rw [Pkce.runListener]; omega⟩
  · exact ⟨hh, hs⟩

/-- C7 witness: two successive successful callback requests still yield
one handled request and one settlement call. -/
theorem listener_handles_at_most_one_callback_witness :
    (Pkce.runListener
        ⟨"http://localhost:3000/callback", "read:jira-work", "cid",
         "https://as.example/token", "ver"⟩
        [(⟨none, none, some "codeA"⟩,
          .response ⟨200, "OK", "b", .ok (.obj [("access_token", .str "abc")])⟩),
         (⟨none, none, some "codeB"⟩,
          .response ⟨200, "OK", "b", .ok (.obj [("access_token", .str "xyz")])⟩)]).handled ≤ 1 ∧
    (Pkce.runListener
        ⟨"http://localhost:3000/callback", "read:jira-work", "cid",
         "https://as.example/token", "ver"⟩
        [(⟨none, none, some "codeA"⟩,
          .response ⟨200, "OK", "b", .ok (.obj [("access_token", .str "abc")])⟩),
         (⟨none, none, some "codeB"⟩,
          .response ⟨200, "OK", "b", .ok (.obj [("access_token", .str "xyz")])⟩)]).settleCalls ≤ 1 :=
  listener_handles_at_most_one_callback _ _

namespace GitOAuth

lemma lookup_eraseKey (m : SessionMap) (k : String) : (eraseKey m k).lookup k = none := by
  induction m with
  | nil => rfl
  | cons hd tl ih =>
    rcases hd with ⟨a, b⟩
    by_cases h : a = k
    · have he : eraseKey ((a, b) :: tl) k = eraseKey tl k := by
        simp [eraseKey, List.filter_cons, h]
      rw [he]
      exact ih
    · have he : eraseKey ((a, b) :: tl) k = (a, b) :: eraseKey tl k := by
        simp [eraseKey, List.filter_cons, h]
      have hbeq : (k == a) = false := beq_eq_false_iff_ne.mpr (Ne.symm h)
      rw [he]
      simp only [List.lookup, hbeq]
      exact ih

lemma lookup_setKey (m : SessionMap) (k : String) (v : Session) :
    (setKey m k v).lookup k = some v := by
  simp [setKey, List.lookup]

lemma validateState_erases (m : SessionMap) (now : Int) (s : String) :
    ((validateState m now s).2).lookup s = none := by
  unfold validateState
  rcases h : m.lookup s with _ | sess
  · exact h
  · dsimp only
    split <;> exact lookup_eraseKey m s

lemma validateState_none_of_absent (m : SessionMap) (now : Int) (s : String)
    (h : m.lookup s = none) : (validateState m now s).1 = none := by
  unfold validateState
  rw [h]

end GitOAuth

/-- C10 counterexample: a state generated exactly five minutes
(300000 ms) earlier — not less than five minutes — still validates to
the bound user id, refuting the strict "less than 5 minutes" reading. -/
theorem validateState_accepts_exactly_five_minutes :
    (GitOAuth.validateState (GitOAuth.generateSecureState [] "u" 0 "r").2 300000
        (GitOAuth.generateSecureState [] "u" 0 "r").1).1 = some "u" ∧
    ¬((300000 : Int) - 0 < 5 * 60 * 1000) := by
  constructor
  · rfl
  · decide

/-- C10 amended: every generated state validates successfully at most
once — the session entry of a looked-up state is deleted, a repeated
validation returns null, and validation returns the userId bound at
generation exactly when the state was generated at most five minutes
(300000 ms) earlier, and null otherwise. -/
theorem validateState_single_use
    (m : GitOAuth.SessionMap) (userId rand : String) (nowG nowV nowW : Int) :
    ((GitOAuth.validateState (GitOAuth.generateSecureState m userId nowG rand).2 nowV
        (GitOAuth.generateSecureState m userId nowG rand).1).1 =
      if nowV - nowG ≤ 300000 then some userId else none) ∧
    ((GitOAuth.validateState (GitOAuth.generateSecureState m userId nowG rand).2 nowV
        (GitOAuth.generateSecureState m userId nowG rand).1).2.lookup
        (GitOAuth.generateSecureState m userId nowG rand).1 = none) ∧
    ((GitOAuth.validateState
        (GitOAuth.validateState (GitOAuth.generateSecureState m userId nowG rand).2 nowV
          (GitOAuth.generateSecureState m userId nowG rand).1).2 nowW
        (GitOAuth.generateSecureState m userId nowG rand).1).1 = none) ∧
    (∀ (m' : GitOAuth.SessionMap) (s : String),
      (GitOAuth.validateState m' nowV s).2.lookup s = none) := by
  refine ⟨?_, GitOAuth.validateState_erases _ _ _, ?_, fun m' s => GitOAuth.validateState_erases _ _ _⟩
  · have hl : ((GitOAuth.generateSecureState m userId nowG rand).2).lookup
        (GitOAuth.generateSecureState m userId nowG rand).1 =
        some ⟨userId, nowG⟩ := GitOAuth.lookup_setKey _ _ _
    unfold GitOAuth.validateState
    rw [hl]
    dsimp only
    by_cases h : nowV - nowG ≤ 300000
    · rw [if_pos h, if_neg (by omega)]
    · rw [if_neg h, if_pos (by omega)]
  · exact GitOAuth.validateState_none_of_absent _ _ _
      (GitOAuth.validateState_erases _ _ _)

/-- C10 amended witness: a freshly generated state validates once to
its user id and a second validation returns null. -/
theorem validateState_single_use_witness :
    ((GitOAuth.validateState (GitOAuth.generateSecureState [] "alice" 1000 "r9" ).2 2000
        (GitOAuth.generateSecureState [] "alice" 1000 "r9").1).1 = some "alice") ∧
    ((GitOAuth.validateState
        (GitOAuth.validateState (GitOAuth.generateSecureState [] "alice" 1000 "r9").2 2000
          (GitOAuth.generateSecureState [] "alice" 1000 "r9").1).2 3000
        (GitOAuth.generateSecureState [] "alice" 1000 "r9").1).1 = none) := by
  have h := validateState_single_use [] "alice" "r9" 1000 2000 3000
  refine ⟨?_, h.2.2.1⟩
  have h1 := h.1
  rw [if_pos (by decide)] at h1
  exact h1
